import Mathlib

/-!
# Verification of the CyberRiskQuant risk simulation engine

Shallow embedding of `models/fair_model.py` and `models/monte_carlo.py`.
Real-valued quantities are modelled as rationals; the numpy random
generators and transcendental functions are abstracted as an oracle
structure (`NumpyEnv`), so every definition stays computable while the
control flow, validation, dispatch and arithmetic of the Python source
are embedded exactly.
-/

/-- Shape shared by the three dataclasses `TEFInput`, `VulnerabilityInput`
and `LossInput` of `fair_model.py`: min, max, optional most-likely value
and a distribution-kind string. -/
structure FactorInput where
  min_value : ℚ
  max_value : ℚ
  most_likely : Option ℚ
  distribution : String
deriving DecidableEq

/-- Constructor of `TEFInput` including its `__post_init__` validation:
negative minimum and inverted bounds raise; for distribution exactly
"triangular" or "pert" an unset `most_likely` defaults to the midpoint. -/
def mkTEFInput (min_value max_value : ℚ) (most_likely : Option ℚ)
    (distribution : String) : Except String FactorInput :=
  if min_value < 0 then
    Except.error "Minimum value cannot be negative"
  else if max_value < min_value then
    Except.error "Maximum value must be greater than minimum value"
  else if (distribution = "triangular" ∨ distribution = "pert") ∧ most_likely = none then
    Except.ok ⟨min_value, max_value, some ((min_value + max_value) / 2), distribution⟩
  else
    Except.ok ⟨min_value, max_value, most_likely, distribution⟩

/-- Constructor of `VulnerabilityInput` including its `__post_init__`
validation: min and max must lie in [0, 1] and be ordered. -/
def mkVulnerabilityInput (min_value max_value : ℚ) (most_likely : Option ℚ)
    (distribution : String) : Except String FactorInput :=
  if ¬ (0 ≤ min_value ∧ min_value ≤ 1) then
    Except.error "Minimum probability must be between 0 and 1"
  else if ¬ (0 ≤ max_value ∧ max_value ≤ 1) then
    Except.error "Maximum probability must be between 0 and 1"
  else if max_value < min_value then
    Except.error "Maximum value must be greater than minimum value"
  else if (distribution = "triangular" ∨ distribution = "pert") ∧ most_likely = none then
    Except.ok ⟨min_value, max_value, some ((min_value + max_value) / 2), distribution⟩
  else
    Except.ok ⟨min_value, max_value, most_likely, distribution⟩

/-- Constructor of `LossInput` including its `__post_init__` validation;
same checks as `TEFInput`. -/
def mkLossInput (min_value max_value : ℚ) (most_likely : Option ℚ)
    (distribution : String) : Except String FactorInput :=
  if min_value < 0 then
    Except.error "Minimum value cannot be negative"
  else if max_value < min_value then
    Except.error "Maximum value must be greater than minimum value"
  else if (distribution = "triangular" ∨ distribution = "pert") ∧ most_likely = none then
    Except.ok ⟨min_value, max_value, some ((min_value + max_value) / 2), distribution⟩
  else
    Except.ok ⟨min_value, max_value, most_likely, distribution⟩

/-- The `FAIRModel` class: name, description and the three optional
factor slots (`None` until set). -/
structure FAIRModel where
  name : String
  description : String
  tef : Option FactorInput
  vulnerability : Option FactorInput
  loss_magnitude : Option FactorInput
deriving DecidableEq

/-- `FAIRModel.__init__`: all three slots start unset. -/
def mkFAIRModel (name description : String) : FAIRModel :=
  ⟨name, description, none, none, none⟩

/-- `FAIRModel.set_threat_event_frequency`. -/
def set_threat_event_frequency (m : FAIRModel) (t : FactorInput) : FAIRModel :=
  { m with tef := some t }

/-- `FAIRModel.set_vulnerability`. -/
def set_vulnerability (m : FAIRModel) (v : FactorInput) : FAIRModel :=
  { m with vulnerability := some v }

/-- `FAIRModel.set_loss_magnitude`. -/
def set_loss_magnitude (m : FAIRModel) (l : FactorInput) : FAIRModel :=
  { m with loss_magnitude := some l }

/-- `FAIRModel.validate_inputs`: raises naming the first unset slot,
returns `True` when all three are set. -/
def validate_inputs (m : FAIRModel) : Except String Bool :=
  match m.tef with
  | none => Except.error "Threat Event Frequency not set"
  | some _ =>
    match m.vulnerability with
    | none => Except.error "Vulnerability not set"
    | some _ =>
      match m.loss_magnitude with
      | none => Except.error "Loss Magnitude not set"
      | some _ => Except.ok true

/-- The per-factor sub-dictionary produced by `FAIRModel.to_dict`. -/
structure FactorDict where
  min_value : ℚ
  max_value : ℚ
  most_likely : Option ℚ
  distribution : String
deriving DecidableEq

/-- The dictionary produced by `FAIRModel.to_dict`. -/
structure ModelDict where
  name : String
  description : String
  tef : Option FactorDict
  vulnerability : Option FactorDict
  loss_magnitude : Option FactorDict
deriving DecidableEq

/-- The four-key sub-dictionary for one factor slot. -/
def factorToDict (p : FactorInput) : FactorDict :=
  ⟨p.min_value, p.max_value, p.most_likely, p.distribution⟩

/-- `FAIRModel.to_dict`. -/
def to_dict (m : FAIRModel) : ModelDict :=
  ⟨m.name, m.description, m.tef.map factorToDict,
    m.vulnerability.map factorToDict, m.loss_magnitude.map factorToDict⟩

/-- `FAIRModel.from_dict`: rebuilds the model through the dataclass
constructors (re-running each `__post_init__`). -/
def from_dict (d : ModelDict) : Except String FAIRModel := do
  let model := mkFAIRModel d.name d.description
  let model ← match d.tef with
    | none => pure model
    | some t => do
      let ti ← mkTEFInput t.min_value t.max_value t.most_likely t.distribution
      pure (set_threat_event_frequency model ti)
  let model ← match d.vulnerability with
    | none => pure model
    | some v => do
      let vi ← mkVulnerabilityInput v.min_value v.max_value v.most_likely v.distribution
      pure (set_vulnerability model vi)
  let model ← match d.loss_magnitude with
    | none => pure model
    | some l => do
      let li ← mkLossInput l.min_value l.max_value l.most_likely l.distribution
      pure (set_loss_magnitude model li)
  pure model

/-- `True` exactly on `Except.error`. -/
def isErrorE {α : Type} (e : Except String α) : Bool :=
  match e with
  | Except.error _ => true
  | Except.ok _ => false

instance {α β : Type} [DecidableEq α] [DecidableEq β] : DecidableEq (Except α β) :=
  fun a b =>
    match a, b with
    | Except.ok x, Except.ok y => decidable_of_iff (x = y) (by simp)
    | Except.ok _, Except.error _ => isFalse (by simp)
    | Except.error _, Except.ok _ => isFalse (by simp)
    | Except.error x, Except.error y => decidable_of_iff (x = y) (by simp)

/-- ASCII lowercase of one character; models Python `str.lower` on the
ASCII distribution-kind strings the code uses. -/
def lowerChar (c : Char) : Char :=
  if 65 ≤ c.toNat ∧ c.toNat ≤ 90 then Char.ofNat (c.toNat + 32) else c

/-- ASCII lowercase of a string (`param.distribution.lower()`). -/
def lowerStr (s : String) : String :=
  ⟨s.data.map lowerChar⟩

/-- Oracle for the numpy routines the sampler calls: the four random
generators (each returning the requested number of draws) and the
transcendental functions `np.log` and the square root used by pandas
`std`, abstracted over the rationals. -/
structure NumpyEnv where
  uniform : ℚ → ℚ → ℕ → List ℚ
  triangular : ℚ → ℚ → ℚ → ℕ → List ℚ
  beta : ℚ → ℚ → ℕ → List ℚ
  lognormal : ℚ → ℚ → ℕ → List ℚ
  log : ℚ → ℚ
  sqrt : ℚ → ℚ

/-- Well-formedness of the oracle: every generator returns exactly the
requested number of draws, as the numpy generators do. -/
def NumpyEnv.WF (g : NumpyEnv) : Prop :=
  (∀ lo hi n, (g.uniform lo hi n).length = n) ∧
  (∀ a m b n, (g.triangular a m b n).length = n) ∧
  (∀ a b n, (g.beta a b n).length = n) ∧
  (∀ mu sigma n, (g.lognormal mu sigma n).length = n)

/-- `MonteCarloSimulation._generate_distribution_sample`.  Returns the
factor as it stands after the call (the pert branch assigns
`param.most_likely` in place when it is unset) together with the drawn
samples.  The library error paths are embedded: the triangular branch
with an unset `most_likely` models the `TypeError` numpy raises when
handed `None`, the parameter checks of `np.random.triangular`
(`left > mode`, `mode > right`, `left == right`) raise `ValueError`, and
`np.random.beta` raises `ValueError` on a nonpositive shape parameter. -/
def generate_distribution_sample (g : NumpyEnv) (param : FactorInput) (size : ℕ) :
    Except String (FactorInput × List ℚ) :=
  let distribution := lowerStr param.distribution
  if distribution = "uniform" then
    Except.ok (param, g.uniform param.min_value param.max_value size)
  else if distribution = "triangular" then
    match param.most_likely with
    | none => Except.error "TypeError: most_likely is not set"
    | some m =>
      -- np.random.triangular validates its parameters before drawing
      if param.min_value > m then Except.error "ValueError: left > mode"
      else if m > param.max_value then Except.error "ValueError: mode > right"
      else if param.min_value = param.max_value then Except.error "ValueError: left == right"
      else Except.ok (param, g.triangular param.min_value m param.max_value size)
  else if distribution = "pert" then
    let param :=
      if param.most_likely = none then
        { param with most_likely := some ((param.min_value + param.max_value) / 2) }
      else param
    let range_val := param.max_value - param.min_value
    if range_val = 0 then
      Except.ok (param, List.replicate size param.min_value)
    else
      -- most_likely is present here: it was assigned above when unset
      let mu := (param.min_value + 4 * param.most_likely.getD 0 + param.max_value) / 6
      if mu = param.min_value ∨ mu = param.max_value then
        Except.ok (param, List.replicate size mu)
      else
        let v := (mu - param.min_value) * (param.max_value - mu) /
          ((param.max_value - param.min_value) ^ 2)
        let w := ((mu - param.min_value) / (param.max_value - param.min_value)) * (1 / v - 1)
        let alpha := w
        let beta := (1 - (mu - param.min_value) / (param.max_value - param.min_value)) * (1 / v - 1)
        -- np.random.beta rejects nonpositive shape parameters
        if alpha ≤ 0 ∨ beta ≤ 0 then Except.error "ValueError: a <= 0 or b <= 0"
        else
          let beta_samples := g.beta alpha beta size
          Except.ok (param, beta_samples.map (fun b => param.min_value + b * range_val))
  else if distribution = "lognormal" then
    let ln_min := g.log param.min_value
    let ln_max := g.log param.max_value
    let z_95 : ℚ := 1645 / 1000
    let sigma := (ln_max - ln_min) / (2 * z_95)
    let mu := (ln_min + ln_max) / 2
    Except.ok (param, g.lognormal mu sigma size)
  else
    Except.ok (param, g.uniform param.min_value param.max_value size)

/-- The results DataFrame: the five columns built by `run_simulation`. -/
structure SimulationResults where
  tef : List ℚ
  vulnerability : List ℚ
  lef : List ℚ
  loss_magnitude : List ℚ
  ale : List ℚ
deriving DecidableEq

/-- The `MonteCarloSimulation` object state: the model, the requested
number of simulations and the stored results (`None` until a successful
run). -/
structure MonteCarloSimulation where
  fair_model : FAIRModel
  num_simulations : ℕ
  results : Option SimulationResults
deriving DecidableEq

/-- `MonteCarloSimulation.__init__` (default `num_simulations` is 10000). -/
def mkMonteCarloSimulation (m : FAIRModel) (num_simulations : ℕ) : MonteCarloSimulation :=
  ⟨m, num_simulations, none⟩

/-- `MonteCarloSimulation.run_simulation`: validates the model, draws the
three sample vectors, forms `LEF = TEF * Vulnerability` and
`ALE = LEF * LossMagnitude` element-wise, and stores the table.  Returns
the object state after the call together with the outcome; on a raised
error nothing is stored. -/
def run_simulation (g : NumpyEnv) (sim : MonteCarloSimulation) :
    MonteCarloSimulation × Except String SimulationResults :=
  match validate_inputs sim.fair_model with
  | Except.error e => (sim, Except.error e)
  | Except.ok _ =>
    match sim.fair_model.tef, sim.fair_model.vulnerability, sim.fair_model.loss_magnitude with
    | some tp, some vp, some lp =>
      match generate_distribution_sample g tp sim.num_simulations with
      | Except.error e => (sim, Except.error e)
      | Except.ok (tp2, tef_samples) =>
        let sim := { sim with fair_model := { sim.fair_model with tef := some tp2 } }
        match generate_distribution_sample g vp sim.num_simulations with
        | Except.error e => (sim, Except.error e)
        | Except.ok (vp2, vulnerability_samples) =>
          let sim := { sim with fair_model := { sim.fair_model with vulnerability := some vp2 } }
          match generate_distribution_sample g lp sim.num_simulations with
          | Except.error e => (sim, Except.error e)
          | Except.ok (lp2, loss_magnitude_samples) =>
            let sim := { sim with fair_model := { sim.fair_model with loss_magnitude := some lp2 } }
            let lef_samples := List.zipWith (· * ·) tef_samples vulnerability_samples
            let ale_samples := List.zipWith (· * ·) lef_samples loss_magnitude_samples
            let results : SimulationResults :=
              ⟨tef_samples, vulnerability_samples, lef_samples, loss_magnitude_samples, ale_samples⟩
            ({ sim with results := some results }, Except.ok results)
    | _, _, _ => (sim, Except.error "unreachable: validation passed with a slot unset")

/-- pandas `Series.min` (NaN on an empty series is modelled by the junk
value 0; no theorem depends on it). -/
def listMin (xs : List ℚ) : ℚ :=
  match xs with
  | [] => 0
  | h :: t => t.foldl min h

/-- pandas `Series.max` (same empty-series convention as `listMin`). -/
def listMax (xs : List ℚ) : ℚ :=
  match xs with
  | [] => 0
  | h :: t => t.foldl max h

/-- pandas `Series.mean` (`0/0 = 0` stands in for NaN on empty input). -/
def listMean (xs : List ℚ) : ℚ :=
  xs.sum / xs.length

/-- pandas `Series.quantile` with the default linear interpolation on the
sorted data (junk 0 on an empty series, standing in for NaN). -/
def listQuantile (xs : List ℚ) (q : ℚ) : ℚ :=
  match List.insertionSort (· ≤ ·) xs with
  | [] => 0
  | h :: t =>
    let n := xs.length
    let pos := q * ((n : ℚ) - 1)
    let i : ℕ := ⌊pos⌋.toNat
    let lo := (h :: t).getD i h
    let hi := (h :: t).getD (min (i + 1) (n - 1)) h
    lo + (pos - (i : ℚ)) * (hi - lo)

/-- pandas `Series.std` (sample standard deviation, ddof = 1), with the
square root taken from the oracle; NaN for fewer than two points is
modelled by whatever the division and oracle produce. -/
def listStd (g : NumpyEnv) (xs : List ℚ) : ℚ :=
  g.sqrt ((xs.map (fun x => (x - listMean xs) ^ 2)).sum / ((xs.length : ℚ) - 1))

/-- The `ALE` block of the summary dictionary. -/
structure ALEStats where
  min : ℚ
  max : ℚ
  mean : ℚ
  median : ℚ
  std : ℚ
  percentile_10 : ℚ
  percentile_25 : ℚ
  percentile_75 : ℚ
  percentile_90 : ℚ
  percentile_95 : ℚ
  percentile_99 : ℚ
deriving DecidableEq

/-- The `LEF` and `Loss_Magnitude` blocks of the summary dictionary. -/
structure FactorStats where
  min : ℚ
  max : ℚ
  mean : ℚ
  median : ℚ
  std : ℚ
deriving DecidableEq

/-- The dictionary returned by `get_summary_statistics`. -/
structure SummaryStatistics where
  ALE : ALEStats
  LEF : FactorStats
  Loss_Magnitude : FactorStats
deriving DecidableEq

/-- `MonteCarloSimulation.get_summary_statistics`: raises only when no
results are stored; a stored zero-row table is reduced like any other. -/
def get_summary_statistics (g : NumpyEnv) (sim : MonteCarloSimulation) :
    Except String SummaryStatistics :=
  match sim.results with
  | none => Except.error "Simulation has not been run yet. Call run_simulation() first."
  | some r =>
    Except.ok
      { ALE :=
        { min := listMin r.ale
          max := listMax r.ale
          mean := listMean r.ale
          median := listQuantile r.ale (1 / 2)
          std := listStd g r.ale
          percentile_10 := listQuantile r.ale (1 / 10)
          percentile_25 := listQuantile r.ale (25 / 100)
          percentile_75 := listQuantile r.ale (75 / 100)
          percentile_90 := listQuantile r.ale (90 / 100)
          percentile_95 := listQuantile r.ale (95 / 100)
          percentile_99 := listQuantile r.ale (99 / 100) }
        LEF :=
        { min := listMin r.lef
          max := listMax r.lef
          mean := listMean r.lef
          median := listQuantile r.lef (1 / 2)
          std := listStd g r.lef }
        Loss_Magnitude :=
        { min := listMin r.loss_magnitude
          max := listMax r.loss_magnitude
          mean := listMean r.loss_magnitude
          median := listQuantile r.loss_magnitude (1 / 2)
          std := listStd g r.loss_magnitude } }

/-- `MonteCarloSimulation.get_value_at_risk`: raises the usage error only
when no results are stored; the out-of-range check on the confidence
level models the `ValueError` pandas `quantile` raises. -/
def get_value_at_risk (sim : MonteCarloSimulation) (confidence_level : ℚ) :
    Except String ℚ :=
  match sim.results with
  | none => Except.error "Simulation has not been run yet. Call run_simulation() first."
  | some r =>
    if ¬ (0 ≤ confidence_level ∧ confidence_level ≤ 1) then
      Except.error "ValueError: percentiles should all be in the interval 0 to 1"
    else
      Except.ok (listQuantile r.ale confidence_level)

/-- The in-place `most_likely` default performed at the top of the pert
arm of the sampler. -/
def pertDefaulted (p : FactorInput) : FactorInput :=
  if p.most_likely = none then
    { p with most_likely := some ((p.min_value + p.max_value) / 2) }
  else p

/-- The PERT-weighted mean `mu` of the pert arm, computed on the
defaulted factor as in the source. -/
def pertMu (p0 : FactorInput) : ℚ :=
  ((pertDefaulted p0).min_value + 4 * (pertDefaulted p0).most_likely.getD 0 +
    (pertDefaulted p0).max_value) / 6

/-- The normalized variance `v` of the pert arm. -/
def pertV (p0 : FactorInput) : ℚ :=
  (pertMu p0 - (pertDefaulted p0).min_value) * ((pertDefaulted p0).max_value - pertMu p0) /
    (((pertDefaulted p0).max_value - (pertDefaulted p0).min_value) ^ 2)

/-- The Beta shape parameter `alpha` of the pert arm. -/
def pertAlpha (p0 : FactorInput) : ℚ :=
  (pertMu p0 - (pertDefaulted p0).min_value) /
    ((pertDefaulted p0).max_value - (pertDefaulted p0).min_value) * (1 / pertV p0 - 1)

/-- The Beta shape parameter `beta` of the pert arm. -/
def pertBetaShape (p0 : FactorInput) : ℚ :=
  (1 - (pertMu p0 - (pertDefaulted p0).min_value) /
    ((pertDefaulted p0).max_value - (pertDefaulted p0).min_value)) * (1 / pertV p0 - 1)

/-- The sample list produced by the pert arm: the two short-circuits
followed by the rescaled Beta draw. -/
def pertSamples (g : NumpyEnv) (p0 : FactorInput) (n : ℕ) : List ℚ :=
  if (pertDefaulted p0).max_value - (pertDefaulted p0).min_value = 0 then
    List.replicate n (pertDefaulted p0).min_value
  else if pertMu p0 = (pertDefaulted p0).min_value ∨ pertMu p0 = (pertDefaulted p0).max_value then
    List.replicate n (pertMu p0)
  else
    (g.beta (pertAlpha p0) (pertBetaShape p0) n).map
      (fun b => (pertDefaulted p0).min_value +
        b * ((pertDefaulted p0).max_value - (pertDefaulted p0).min_value))

/-- The pert arm draws without raising: either one of the two degenerate
short-circuits fires, or both derived Beta shape parameters are positive
(the domain `np.random.beta` accepts). -/
def pertOK (p0 : FactorInput) : Prop :=
  (pertDefaulted p0).max_value - (pertDefaulted p0).min_value = 0 ∨
  (pertMu p0 = (pertDefaulted p0).min_value ∨ pertMu p0 = (pertDefaulted p0).max_value) ∨
  (0 < pertAlpha p0 ∧ 0 < pertBetaShape p0)

/-- The factor lies in its sampler's parameter domain, so the numpy call
backing its branch does not raise: a triangular kind needs a set mode
with `min_value ≤ most_likely ≤ max_value` and `min_value ≠ max_value`
(`np.random.triangular` rejects anything else), and a pert kind needs
`pertOK`; the uniform, lognormal and fallback branches never raise. -/
def factorSamplable (p : FactorInput) : Prop :=
  (lowerStr p.distribution = "triangular" →
    ∃ m, p.most_likely = some m ∧ p.min_value ≤ m ∧ m ≤ p.max_value ∧
      p.min_value ≠ p.max_value) ∧
  (lowerStr p.distribution = "pert" → pertOK p)

/-- A concrete oracle used by the closed witness theorems: every
generator returns constant draws of the requested length. -/
def envConst : NumpyEnv :=
  ⟨fun lo _ n => List.replicate n lo,
   fun a _ _ n => List.replicate n a,
   fun _ _ n => List.replicate n (1 / 2),
   fun mu _ n => List.replicate n mu,
   fun x => x,
   fun x => x⟩

/-- A populated slot stores exactly what its dataclass constructor
produces on the stored field values: the state every slot is in once the
model has been assembled through the constructors (`__post_init__` has
validated the bounds and resolved the `most_likely` default). -/
def slotConstructed (mk : ℚ → ℚ → Option ℚ → String → Except String FactorInput)
    (o : Option FactorInput) : Bool :=
  match o with
  | none => true
  | some p => decide (mk p.min_value p.max_value p.most_likely p.distribution = Except.ok p)

theorem pertDefaulted_min (p : FactorInput) :
    (pertDefaulted p).min_value = p.min_value := by
  unfold pertDefaulted
  split_ifs <;> rfl

theorem pertDefaulted_max (p : FactorInput) :
    (pertDefaulted p).max_value = p.max_value := by
  unfold pertDefaulted
  split_ifs <;> rfl

theorem pertDefaulted_dist (p : FactorInput) :
    (pertDefaulted p).distribution = p.distribution := by
  unfold pertDefaulted
  split_ifs <;> rfl

theorem envConst_wf : envConst.WF := by
  refine ⟨?_, ?_, ?_, ?_⟩ <;> intros <;> simp [envConst]

theorem lowerStr_pert_cased : lowerStr "PERT" = "pert" := by decide

theorem lowerStr_uniform_cased : lowerStr "Uniform" = "uniform" := by decide

/-- C3: constructing a distribution input raises a validation error exactly
when an invariant is violated — inverted bounds for any factor,
vulnerability bounds outside [0, 1], or a negative minimum for threat
frequency and loss magnitude — and on success the stored bounds and kind
are exactly the given ones, so nothing is clamped on the way to an error. -/
theorem C3_construction_fails_exactly_on_violation
    (mn mx : ℚ) (ml : Option ℚ) (d : String) :
    (isErrorE (mkTEFInput mn mx ml d) = true ↔ (mn < 0 ∨ mx < mn)) ∧
    (isErrorE (mkVulnerabilityInput mn mx ml d) = true ↔
      (¬ (0 ≤ mn ∧ mn ≤ 1) ∨ ¬ (0 ≤ mx ∧ mx ≤ 1) ∨ mx < mn)) ∧
    (isErrorE (mkLossInput mn mx ml d) = true ↔ (mn < 0 ∨ mx < mn)) ∧
    (∀ p, mkTEFInput mn mx ml d = Except.ok p →
      p.min_value = mn ∧ p.max_value = mx ∧ p.distribution = d) ∧
    (∀ p, mkVulnerabilityInput mn mx ml d = Except.ok p →
      p.min_value = mn ∧ p.max_value = mx ∧ p.distribution = d) ∧
    (∀ p, mkLossInput mn mx ml d = Except.ok p →
      p.min_value = mn ∧ p.max_value = mx ∧ p.distribution = d) := by
  unfold mkTEFInput mkVulnerabilityInput mkLossInput isErrorE
  refine ⟨?_, ?_, ?_, ?_, ?_, ?_⟩ <;> split_ifs <;> simp_all

theorem C3_construction_fails_exactly_on_violation_witness :
    isErrorE (mkTEFInput (-1) 5 none "uniform") = true ∧
    isErrorE (mkVulnerabilityInput 0 2 none "uniform") = true ∧
    isErrorE (mkLossInput 3 1 none "uniform") = true ∧
    (⟨0, 2, none, "uniform"⟩ : FactorInput).min_value = 0 := by
  refine ⟨?_, ?_, ?_, ?_⟩
  · exact (C3_construction_fails_exactly_on_violation (-1) 5 none "uniform").1.mpr
      (Or.inl (by norm_num))
  · exact (C3_construction_fails_exactly_on_violation 0 2 none "uniform").2.1.mpr
      (Or.inr (Or.inl (by norm_num)))
  · exact (C3_construction_fails_exactly_on_violation 3 1 none "uniform").2.2.1.mpr
      (Or.inr (by norm_num))
  · exact ((C3_construction_fails_exactly_on_violation 0 2 none
      "uniform").2.2.2.1 ⟨0, 2, none, "uniform"⟩ (by decide)).1

/-- C2: serialising a model with `to_dict` and re-parsing it with
`from_dict` reproduces every field exactly — name, description, and for
each populated slot its min, max, `most_likely` (including `None`) and
distribution kind — with unset slots remaining unset. -/
theorem C2_to_dict_from_dict_roundtrip (m : FAIRModel)
    (ht : slotConstructed mkTEFInput m.tef = true)
    (hv : slotConstructed mkVulnerabilityInput m.vulnerability = true)
    (hl : slotConstructed mkLossInput m.loss_magnitude = true) :
    from_dict (to_dict m) = Except.ok m := by
  obtain ⟨name, description, tef, vul, lm⟩ := m
  cases tef <;> cases vul <;> cases lm <;>
    simp_all [slotConstructed, from_dict, to_dict, factorToDict, mkFAIRModel,
      set_threat_event_frequency, set_vulnerability, set_loss_magnitude] <;>
    rfl

theorem C2_to_dict_from_dict_roundtrip_witness :
    from_dict (to_dict ⟨"Ransomware", "encrypt and extort",
      some ⟨0, 2, none, "uniform"⟩, none, some ⟨1, 5, some 3, "pert"⟩⟩) =
      Except.ok ⟨"Ransomware", "encrypt and extort",
        some ⟨0, 2, none, "uniform"⟩, none, some ⟨1, 5, some 3, "pert"⟩⟩ :=
  C2_to_dict_from_dict_roundtrip _ (by decide) (by decide) (by decide)

/-- Shape of a successful `TEFInput` construction. -/
theorem mkTEFInput_ok (mn mx : ℚ) (ml : Option ℚ) (d : String) (p : FactorInput)
    (hp : mkTEFInput mn mx ml d = Except.ok p) :
    p = (if (d = "triangular" ∨ d = "pert") ∧ ml = none then
      (⟨mn, mx, some ((mn + mx) / 2), d⟩ : FactorInput) else ⟨mn, mx, ml, d⟩) := by
  unfold mkTEFInput at hp
  split_ifs at hp with h1 h2 h3
  · injection hp with h
    rw [if_pos h3]
    exact h.symm
  · injection hp with h
    rw [if_neg h3]
    exact h.symm

/-- Shape of a successful `VulnerabilityInput` construction. -/
theorem mkVulnerabilityInput_ok (mn mx : ℚ) (ml : Option ℚ) (d : String) (p : FactorInput)
    (hp : mkVulnerabilityInput mn mx ml d = Except.ok p) :
    p = (if (d = "triangular" ∨ d = "pert") ∧ ml = none then
      (⟨mn, mx, some ((mn + mx) / 2), d⟩ : FactorInput) else ⟨mn, mx, ml, d⟩) := by
  unfold mkVulnerabilityInput at hp
  split_ifs at hp with h1 h2 h3 h4
  · injection hp with h
    rw [if_pos h4]
    exact h.symm
  · injection hp with h
    rw [if_neg h4]
    exact h.symm

/-- Shape of a successful `LossInput` construction. -/
theorem mkLossInput_ok (mn mx : ℚ) (ml : Option ℚ) (d : String) (p : FactorInput)
    (hp : mkLossInput mn mx ml d = Except.ok p) :
    p = (if (d = "triangular" ∨ d = "pert") ∧ ml = none then
      (⟨mn, mx, some ((mn + mx) / 2), d⟩ : FactorInput) else ⟨mn, mx, ml, d⟩) := by
  unfold mkLossInput at hp
  split_ifs at hp with h1 h2 h3
  · injection hp with h
    rw [if_pos h3]
    exact h.symm
  · injection hp with h
    rw [if_neg h3]
    exact h.symm

/-- C4: for a spec built with an unset `most_likely`, the constructors set
it to the midpoint of min and max exactly for the kinds "triangular" and
"pert", and leave it unset for "uniform" and "lognormal". -/
theorem C4_most_likely_midpoint_default (mn mx : ℚ) (d : String) :
    (∀ p, mkTEFInput mn mx none d = Except.ok p →
      ((d = "triangular" ∨ d = "pert") → p.most_likely = some ((mn + mx) / 2)) ∧
      ((d = "uniform" ∨ d = "lognormal") → p.most_likely = none)) ∧
    (∀ p, mkVulnerabilityInput mn mx none d = Except.ok p →
      ((d = "triangular" ∨ d = "pert") → p.most_likely = some ((mn + mx) / 2)) ∧
      ((d = "uniform" ∨ d = "lognormal") → p.most_likely = none)) ∧
    (∀ p, mkLossInput mn mx none d = Except.ok p →
      ((d = "triangular" ∨ d = "pert") → p.most_likely = some ((mn + mx) / 2)) ∧
      ((d = "uniform" ∨ d = "lognormal") → p.most_likely = none)) := by
  have key : ∀ p : FactorInput,
      p = (if (d = "triangular" ∨ d = "pert") ∧ (none : Option ℚ) = none then
        (⟨mn, mx, some ((mn + mx) / 2), d⟩ : FactorInput) else ⟨mn, mx, none, d⟩) →
      ((d = "triangular" ∨ d = "pert") → p.most_likely = some ((mn + mx) / 2)) ∧
      ((d = "uniform" ∨ d = "lognormal") → p.most_likely = none) := by
    intro p hp
    constructor
    · intro hd
      rw [hp, if_pos ⟨hd, rfl⟩]
    · intro hd
      have hne : ¬ ((d = "triangular" ∨ d = "pert") ∧ (none : Option ℚ) = none) := by
        rintro ⟨hc, -⟩
        rcases hc with rfl | rfl <;> rcases hd with h | h <;> exact absurd h (by decide)
      rw [hp, if_neg hne]
  exact ⟨fun p hp => key p (mkTEFInput_ok mn mx none d p hp),
         fun p hp => key p (mkVulnerabilityInput_ok mn mx none d p hp),
         fun p hp => key p (mkLossInput_ok mn mx none d p hp)⟩

/-- Validation succeeds exactly when every slot is populated. -/
theorem validate_inputs_ok_iff (m : FAIRModel) :
    isErrorE (validate_inputs m) = false ↔
      (m.tef ≠ none ∧ m.vulnerability ≠ none ∧ m.loss_magnitude ≠ none) := by
  obtain ⟨nm, ds, tef, vul, lm⟩ := m
  cases tef <;> cases vul <;> cases lm <;> simp [validate_inputs, isErrorE]

theorem validate_inputs_tef_none (m : FAIRModel) (h : m.tef = none) :
    validate_inputs m = Except.error "Threat Event Frequency not set" := by
  unfold validate_inputs
  rw [h]

theorem validate_inputs_vul_none (m : FAIRModel) (tp : FactorInput)
    (ht : m.tef = some tp) (h : m.vulnerability = none) :
    validate_inputs m = Except.error "Vulnerability not set" := by
  unfold validate_inputs
  rw [ht, h]

theorem validate_inputs_lm_none (m : FAIRModel) (tp vp : FactorInput)
    (ht : m.tef = some tp) (hv : m.vulnerability = some vp) (h : m.loss_magnitude = none) :
    validate_inputs m = Except.error "Loss Magnitude not set" := by
  unfold validate_inputs
  rw [ht, hv, h]

/-- A failed validation makes `run_simulation` re-raise it untouched. -/
theorem run_simulation_validate_error (g : NumpyEnv) (sim : MonteCarloSimulation)
    (msg : String) (h : validate_inputs sim.fair_model = Except.error msg) :
    run_simulation g sim = (sim, Except.error msg) := by
  unfold run_simulation
  rw [h]

/-- C8: with at least one factor slot unset, `run_simulation` fails with
the validation message naming a missing slot and leaves the stored
results absent; validation succeeds exactly when all three slots are
populated. -/
theorem C8_missing_slot_blocks_run (g : NumpyEnv) (sim : MonteCarloSimulation)
    (hres : sim.results = none)
    (hmiss : sim.fair_model.tef = none ∨ sim.fair_model.vulnerability = none ∨
      sim.fair_model.loss_magnitude = none) :
    (∃ msg, run_simulation g sim = (sim, Except.error msg) ∧
      ((msg = "Threat Event Frequency not set" ∧ sim.fair_model.tef = none) ∨
       (msg = "Vulnerability not set" ∧ sim.fair_model.vulnerability = none) ∨
       (msg = "Loss Magnitude not set" ∧ sim.fair_model.loss_magnitude = none))) ∧
    (run_simulation g sim).1.results = none ∧
    (∀ m : FAIRModel, isErrorE (validate_inputs m) = false ↔
      (m.tef ≠ none ∧ m.vulnerability ≠ none ∧ m.loss_magnitude ≠ none)) := by
  have hval : ∃ msg, validate_inputs sim.fair_model = Except.error msg ∧
      ((msg = "Threat Event Frequency not set" ∧ sim.fair_model.tef = none) ∨
       (msg = "Vulnerability not set" ∧ sim.fair_model.vulnerability = none) ∨
       (msg = "Loss Magnitude not set" ∧ sim.fair_model.loss_magnitude = none)) := by
    cases htef : sim.fair_model.tef with
    | none =>
      exact ⟨_, validate_inputs_tef_none _ htef, Or.inl ⟨rfl, rfl⟩⟩
    | some tp =>
      cases hvul : sim.fair_model.vulnerability with
      | none =>
        exact ⟨_, validate_inputs_vul_none _ tp htef hvul, Or.inr (Or.inl ⟨rfl, rfl⟩)⟩
      | some vp =>
        cases hlm : sim.fair_model.loss_magnitude with
        | none =>
          exact ⟨_, validate_inputs_lm_none _ tp vp htef hvul hlm,
            Or.inr (Or.inr ⟨rfl, rfl⟩)⟩
        | some lp =>
          rcases hmiss with h | h | h
          · exact absurd htef (h ▸ (by simp))
          · exact absurd hvul (h ▸ (by simp))
          · exact absurd hlm (h ▸ (by simp))
  obtain ⟨msg, hmsg, hnames⟩ := hval
  have hrun : run_simulation g sim = (sim, Except.error msg) :=
    run_simulation_validate_error g sim msg hmsg
  refine ⟨⟨msg, hrun, hnames⟩, ?_, validate_inputs_ok_iff⟩
  rw [hrun]
  exact hres

theorem C8_missing_slot_blocks_run_witness :
    (∃ msg, run_simulation envConst (mkMonteCarloSimulation (mkFAIRModel "m" "d") 5) =
        (mkMonteCarloSimulation (mkFAIRModel "m" "d") 5, Except.error msg) ∧
      ((msg = "Threat Event Frequency not set" ∧
          (mkMonteCarloSimulation (mkFAIRModel "m" "d") 5).fair_model.tef = none) ∨
       (msg = "Vulnerability not set" ∧
          (mkMonteCarloSimulation (mkFAIRModel "m" "d") 5).fair_model.vulnerability = none) ∨
       (msg = "Loss Magnitude not set" ∧
          (mkMonteCarloSimulation (mkFAIRModel "m" "d") 5).fair_model.loss_magnitude = none))) ∧
    (run_simulation envConst (mkMonteCarloSimulation (mkFAIRModel "m" "d") 5)).1.results = none ∧
    (∀ m : FAIRModel, isErrorE (validate_inputs m) = false ↔
      (m.tef ≠ none ∧ m.vulnerability ≠ none ∧ m.loss_magnitude ≠ none)) :=
  C8_missing_slot_blocks_run envConst (mkMonteCarloSimulation (mkFAIRModel "m" "d") 5)
    rfl (Or.inl rfl)

/-- C9 (amended): requesting summary statistics or value-at-risk fails
with the usage error exactly when no results are stored, i.e. before any
run; a stored zero-row results table is not rejected (pandas computes NaN
statistics over it), contrary to the zero-row half of the claim. -/
theorem C9_usage_error_iff_results_absent (g : NumpyEnv)
    (sim : MonteCarloSimulation) (cl : ℚ) (hcl : 0 ≤ cl ∧ cl ≤ 1) :
    (isErrorE (get_summary_statistics g sim) = true ↔ sim.results = none) ∧
    (isErrorE (get_value_at_risk sim cl) = true ↔ sim.results = none) := by
  cases hres : sim.results <;>
    simp [get_summary_statistics, get_value_at_risk, isErrorE, hres, hcl]

theorem C9_usage_error_iff_results_absent_witness :
    (isErrorE (get_summary_statistics envConst
        (mkMonteCarloSimulation (mkFAIRModel "m" "d") 5)) = true ↔
      (mkMonteCarloSimulation (mkFAIRModel "m" "d") 5).results = none) ∧
    (isErrorE (get_value_at_risk
        (mkMonteCarloSimulation (mkFAIRModel "m" "d") 5) 1) = true ↔
      (mkMonteCarloSimulation (mkFAIRModel "m" "d") 5).results = none) :=
  C9_usage_error_iff_results_absent envConst
    (mkMonteCarloSimulation (mkFAIRModel "m" "d") 5) 1 (by norm_num)

/-- C9 counterexample: on a stored zero-row results table, both the
summary and the value-at-risk calls return a value instead of failing
with a usage error, refuting the claim as stated. -/
theorem C9_counterexample_zero_row_table :
    isErrorE (get_summary_statistics envConst
      ⟨mkFAIRModel "m" "d", 0, some ⟨[], [], [], [], []⟩⟩) = false ∧
    isErrorE (get_value_at_risk
      ⟨mkFAIRModel "m" "d", 0, some ⟨[], [], [], [], []⟩⟩ 1) = false ∧
    (⟨[], [], [], [], []⟩ : SimulationResults).ale.length = 0 := by
  refine ⟨rfl, ?_, rfl⟩
  simp [get_value_at_risk, isErrorE]

theorem C4_most_likely_midpoint_default_witness :
    (⟨0, 10, some 5, "triangular"⟩ : FactorInput).most_likely = some ((0 + 10) / 2) ∧
    (⟨0, 10, none, "uniform"⟩ : FactorInput).most_likely = none := by
  constructor
  · exact ((C4_most_likely_midpoint_default 0 10 "triangular").1
      ⟨0, 10, some 5, "triangular"⟩ (by norm_num [mkTEFInput])).1 (Or.inl rfl)
  · exact ((C4_most_likely_midpoint_default 0 10 "uniform").1
      ⟨0, 10, none, "uniform"⟩ (by decide)).2 (Or.inl rfl)

/-- The sampler's uniform branch. -/
theorem generate_uniform_branch (g : NumpyEnv) (p : FactorInput) (n : ℕ)
    (h : lowerStr p.distribution = "uniform") :
    generate_distribution_sample g p n =
      Except.ok (p, g.uniform p.min_value p.max_value n) := by
  unfold generate_distribution_sample
  rw [h]
  rfl

/-- The sampler's triangular branch with a set mode inside numpy's
accepted parameter domain. -/
theorem generate_triangular_branch (g : NumpyEnv) (p : FactorInput) (n : ℕ) (m : ℚ)
    (h : lowerStr p.distribution = "triangular") (hm : p.most_likely = some m)
    (hlm : ¬ p.min_value > m) (hmr : ¬ m > p.max_value)
    (hne : p.min_value ≠ p.max_value) :
    generate_distribution_sample g p n =
      Except.ok (p, g.triangular p.min_value m p.max_value n) := by
  unfold generate_distribution_sample
  rw [h, hm]
  rw [if_neg (by decide : ¬ ("triangular" : String) = "uniform")]
  rw [if_pos rfl]
  show (if p.min_value > m then Except.error "ValueError: left > mode"
    else if m > p.max_value then Except.error "ValueError: mode > right"
    else if p.min_value = p.max_value then Except.error "ValueError: left == right"
    else Except.ok (p, g.triangular p.min_value m p.max_value n)) =
    Except.ok (p, g.triangular p.min_value m p.max_value n)
  rw [if_neg hlm, if_neg hmr, if_neg hne]

/-- The sampler's triangular branch with an unset mode raises (numpy
cannot consume `None`). -/
theorem generate_triangular_branch_none (g : NumpyEnv) (p : FactorInput) (n : ℕ)
    (h : lowerStr p.distribution = "triangular") (hm : p.most_likely = none) :
    generate_distribution_sample g p n =
      Except.error "TypeError: most_likely is not set" := by
  unfold generate_distribution_sample
  rw [h, hm]
  rw [if_neg (by decide : ¬ ("triangular" : String) = "uniform")]
  rw [if_pos rfl]

/-- The sampler's pert arm in full, expressed through the factored
definitions, including the rejection of nonpositive shape parameters. -/
theorem generate_pert_eq (g : NumpyEnv) (p : FactorInput) (n : ℕ)
    (h : lowerStr p.distribution = "pert") :
    generate_distribution_sample g p n =
      (if (pertDefaulted p).max_value - (pertDefaulted p).min_value = 0 then
        Except.ok (pertDefaulted p, List.replicate n (pertDefaulted p).min_value)
      else if pertMu p = (pertDefaulted p).min_value ∨ pertMu p = (pertDefaulted p).max_value then
        Except.ok (pertDefaulted p, List.replicate n (pertMu p))
      else if pertAlpha p ≤ 0 ∨ pertBetaShape p ≤ 0 then
        Except.error "ValueError: a <= 0 or b <= 0"
      else
        Except.ok (pertDefaulted p,
          (g.beta (pertAlpha p) (pertBetaShape p) n).map
            (fun b => (pertDefaulted p).min_value +
              b * ((pertDefaulted p).max_value - (pertDefaulted p).min_value)))) := by
  unfold generate_distribution_sample pertAlpha pertBetaShape pertV pertMu pertDefaulted
  rw [h]
  rw [if_neg (by decide : ¬ ("pert" : String) = "uniform")]
  rw [if_neg (by decide : ¬ ("pert" : String) = "triangular")]
  rw [if_pos rfl]

/-- On `pertOK` factors the pert arm succeeds with the `pertSamples`
draws. -/
theorem generate_pert_branch (g : NumpyEnv) (p : FactorInput) (n : ℕ)
    (h : lowerStr p.distribution = "pert") (hps : pertOK p) :
    generate_distribution_sample g p n =
      Except.ok (pertDefaulted p, pertSamples g p n) := by
  rw [generate_pert_eq g p n h]
  unfold pertSamples
  split_ifs with h1 h2 h3
  · rfl
  · rfl
  · rcases hps with hr | hb | ⟨ha, hb2⟩
    · exact absurd hr h1
    · exact absurd hb h2
    · rcases h3 with hc | hc
      · exact absurd ha (by linarith)
      · exact absurd hb2 (by linarith)
  · rfl

/-- The sampler's lognormal branch. -/
theorem generate_lognormal_branch (g : NumpyEnv) (p : FactorInput) (n : ℕ)
    (h : lowerStr p.distribution = "lognormal") :
    generate_distribution_sample g p n =
      Except.ok (p, g.lognormal ((g.log p.min_value + g.log p.max_value) / 2)
        ((g.log p.max_value - g.log p.min_value) / (2 * (1645 / 1000))) n) := by
  unfold generate_distribution_sample
  rw [h]
  rw [if_neg (by decide : ¬ ("lognormal" : String) = "uniform")]
  rw [if_neg (by decide : ¬ ("lognormal" : String) = "triangular")]
  rw [if_neg (by decide : ¬ ("lognormal" : String) = "pert")]
  rw [if_pos rfl]

/-- The sampler's default arm: any unrecognized kind draws uniformly. -/
theorem generate_fallback_branch (g : NumpyEnv) (p : FactorInput) (n : ℕ)
    (h1 : lowerStr p.distribution ≠ "uniform")
    (h2 : lowerStr p.distribution ≠ "triangular")
    (h3 : lowerStr p.distribution ≠ "pert")
    (h4 : lowerStr p.distribution ≠ "lognormal") :
    generate_distribution_sample g p n =
      Except.ok (p, g.uniform p.min_value p.max_value n) := by
  simp only [generate_distribution_sample, if_neg h1, if_neg h2, if_neg h3, if_neg h4]

/-- With the defaulted midpoint mode, the pert mean is the midpoint and
both Beta shapes equal 3/2 whenever the range is nonzero. -/
theorem pert_default_shapes (mn mx : ℚ) (d : String) (hne : mn ≠ mx) :
    pertAlpha ⟨mn, mx, none, d⟩ = 3 / 2 ∧ pertBetaShape ⟨mn, mx, none, d⟩ = 3 / 2 := by
  have hsub : mx - mn ≠ 0 := fun hc => hne (by linarith)
  have hd : pertDefaulted ⟨mn, mx, none, d⟩ = ⟨mn, mx, some ((mn + mx) / 2), d⟩ := by
    unfold pertDefaulted
    rw [if_pos rfl]
  have hmu : pertMu ⟨mn, mx, none, d⟩ = (mn + mx) / 2 := by
    unfold pertMu
    rw [hd]
    show (mn + 4 * ((mn + mx) / 2) + mx) / 6 = (mn + mx) / 2
    ring
  have hv : pertV ⟨mn, mx, none, d⟩ = 1 / 4 := by
    unfold pertV
    rw [hmu, hd]
    show ((mn + mx) / 2 - mn) * (mx - (mn + mx) / 2) / ((mx - mn) ^ 2) = 1 / 4
    field_simp
    ring
  constructor
  · unfold pertAlpha
    rw [hmu, hv, hd]
    show ((mn + mx) / 2 - mn) / (mx - mn) * (1 / (1 / 4) - 1) = 3 / 2
    field_simp
    ring
  · unfold pertBetaShape
    rw [hmu, hv, hd]
    show (1 - ((mn + mx) / 2 - mn) / (mx - mn)) * (1 / (1 / 4) - 1) = 3 / 2
    field_simp
    ring

/-- A factor whose `most_likely` is left to the midpoint default always
lies in the pert arm's accepted domain. -/
theorem pertOK_default (mn mx : ℚ) (d : String) (h1 : mn ≤ mx) :
    pertOK ⟨mn, mx, none, d⟩ := by
  unfold pertOK
  by_cases he : mn = mx
  · left
    rw [pertDefaulted_max, pertDefaulted_min]
    show mx - mn = 0
    rw [he]
    ring
  · right
    right
    obtain ⟨ha, hb⟩ := pert_default_shapes mn mx d he
    rw [ha, hb]
    norm_num

/-- C5: in the pert branch a zero range short-circuits every draw to
`min_value` without any beta draw (the result is the same for every
oracle), and a PERT mean equal to either bound short-circuits every draw
to that constant mean. -/
theorem C5_pert_short_circuits (g : NumpyEnv) (p : FactorInput) (n : ℕ)
    (h : lowerStr p.distribution = "pert") :
    (p.max_value - p.min_value = 0 →
      generate_distribution_sample g p n =
        Except.ok (pertDefaulted p, List.replicate n p.min_value)) ∧
    (p.max_value - p.min_value ≠ 0 →
      (pertMu p = p.min_value ∨ pertMu p = p.max_value) →
      generate_distribution_sample g p n =
        Except.ok (pertDefaulted p, List.replicate n (pertMu p))) := by
  constructor
  · intro h0
    rw [generate_pert_eq g p n h]
    rw [pertDefaulted_max, pertDefaulted_min, if_pos h0]
  · intro h0 hmu
    rw [generate_pert_eq g p n h]
    rw [pertDefaulted_max, pertDefaulted_min, if_neg h0, if_pos hmu]

theorem C5_pert_short_circuits_witness :
    generate_distribution_sample envConst ⟨5, 5, some 5, "pert"⟩ 2 =
      Except.ok (pertDefaulted ⟨5, 5, some 5, "pert"⟩,
        List.replicate 2 (FactorInput.min_value ⟨5, 5, some 5, "pert"⟩)) ∧
    generate_distribution_sample envConst ⟨0, 4, some (-1), "pert"⟩ 3 =
      Except.ok (pertDefaulted ⟨0, 4, some (-1), "pert"⟩,
        List.replicate 3 (pertMu ⟨0, 4, some (-1), "pert"⟩)) := by
  constructor
  · exact (C5_pert_short_circuits envConst ⟨5, 5, some 5, "pert"⟩ 2 (by decide)).1
      (by norm_num)
  · have hpd : pertDefaulted ⟨0, 4, some (-1), "pert"⟩ = ⟨0, 4, some (-1), "pert"⟩ := by
      unfold pertDefaulted
      rw [if_neg (by decide)]
    exact (C5_pert_short_circuits envConst ⟨0, 4, some (-1), "pert"⟩ 3 (by decide)).2
      (by norm_num)
      (Or.inl (by unfold pertMu ; rw [hpd] ; norm_num [Option.getD_some]))

/-- C6 (amended): a sampling call leaves the factor's min, max and
distribution unchanged, and leaves `most_likely` unchanged except on the
pert path with an unset `most_likely`, where the call itself sets it to
the midpoint — so the claim's blanket "all fields unchanged" fails
exactly there. -/
theorem C6_sampling_frame (g : NumpyEnv) (p p2 : FactorInput) (n : ℕ) (s : List ℚ)
    (h : generate_distribution_sample g p n = Except.ok (p2, s)) :
    p2.min_value = p.min_value ∧ p2.max_value = p.max_value ∧
    p2.distribution = p.distribution ∧
    (p2.most_likely = p.most_likely ∨
      (p.most_likely = none ∧ lowerStr p.distribution = "pert" ∧
        p2.most_likely = some ((p.min_value + p.max_value) / 2))) := by
  by_cases h1 : lowerStr p.distribution = "uniform"
  · rw [generate_uniform_branch g p n h1] at h
    injection h with h
    injection h with h hs
    cases h
    exact ⟨rfl, rfl, rfl, Or.inl rfl⟩
  by_cases h2 : lowerStr p.distribution = "triangular"
  · cases hm : p.most_likely with
    | none =>
      rw [generate_triangular_branch_none g p n h2 hm] at h
      exact absurd h (by simp)
    | some m =>
      unfold generate_distribution_sample at h
      rw [h2, hm] at h
      rw [if_neg (by decide : ¬ ("triangular" : String) = "uniform")] at h
      rw [if_pos rfl] at h
      replace h : (if p.min_value > m then Except.error "ValueError: left > mode"
        else if m > p.max_value then Except.error "ValueError: mode > right"
        else if p.min_value = p.max_value then Except.error "ValueError: left == right"
        else Except.ok (p, g.triangular p.min_value m p.max_value n)) =
          Except.ok (p2, s) := h
      split_ifs at h
      all_goals
        first
        | (injection h with h
           injection h with h hs
           cases h
           exact ⟨rfl, rfl, rfl, Or.inl hm⟩)
        | injection h
  by_cases h3 : lowerStr p.distribution = "pert"
  · rw [generate_pert_eq g p n h3] at h
    have hpd : pertDefaulted p = p2 := by
      split_ifs at h
      all_goals
        first
        | exact congrArg Prod.fst (Except.ok.inj h)
        | injection h
    cases hm : p.most_likely with
    | none =>
      unfold pertDefaulted at hpd
      rw [if_pos hm] at hpd
      cases hpd
      exact ⟨rfl, rfl, rfl, Or.inr ⟨rfl, h3, rfl⟩⟩
    | some m =>
      unfold pertDefaulted at hpd
      rw [if_neg (by simp [hm])] at hpd
      cases hpd
      exact ⟨rfl, rfl, rfl, Or.inl hm⟩
  by_cases h4 : lowerStr p.distribution = "lognormal"
  · rw [generate_lognormal_branch g p n h4] at h
    injection h with h
    injection h with h hs
    cases h
    exact ⟨rfl, rfl, rfl, Or.inl rfl⟩
  · rw [generate_fallback_branch g p n h1 h2 h3 h4] at h
    injection h with h
    injection h with h hs
    cases h
    exact ⟨rfl, rfl, rfl, Or.inl rfl⟩

theorem C6_sampling_frame_witness :
    (⟨1, 2, none, "uniform"⟩ : FactorInput).min_value =
      (⟨1, 2, none, "uniform"⟩ : FactorInput).min_value ∧
    (⟨1, 2, none, "uniform"⟩ : FactorInput).max_value =
      (⟨1, 2, none, "uniform"⟩ : FactorInput).max_value ∧
    (⟨1, 2, none, "uniform"⟩ : FactorInput).distribution =
      (⟨1, 2, none, "uniform"⟩ : FactorInput).distribution ∧
    ((⟨1, 2, none, "uniform"⟩ : FactorInput).most_likely =
        (⟨1, 2, none, "uniform"⟩ : FactorInput).most_likely ∨
      ((⟨1, 2, none, "uniform"⟩ : FactorInput).most_likely = none ∧
        lowerStr (⟨1, 2, none, "uniform"⟩ : FactorInput).distribution = "pert" ∧
        (⟨1, 2, none, "uniform"⟩ : FactorInput).most_likely =
          some (((⟨1, 2, none, "uniform"⟩ : FactorInput).min_value +
            (⟨1, 2, none, "uniform"⟩ : FactorInput).max_value) / 2))) :=
  C6_sampling_frame envConst ⟨1, 2, none, "uniform"⟩ ⟨1, 2, none, "uniform"⟩ 2
    (List.replicate 2 1) (by decide)

/-- C6 counterexample: sampling a PERT-cased spec whose `most_likely` is
unset returns the factor with `most_likely` overwritten to the midpoint,
so the sampling call does mutate the spec's fields. -/
theorem C6_counterexample_pert_mutates_spec :
    generate_distribution_sample envConst ⟨0, 10, none, "PERT"⟩ 1 =
      Except.ok (⟨0, 10, some 5, "PERT"⟩, [5]) ∧
    (⟨0, 10, some 5, "PERT"⟩ : FactorInput).most_likely ≠
      (⟨0, 10, none, "PERT"⟩ : FactorInput).most_likely := by
  constructor
  · rw [generate_pert_branch envConst ⟨0, 10, none, "PERT"⟩ 1 (by decide)
      (pertOK_default 0 10 "PERT" (by norm_num))]
    norm_num [pertDefaulted, pertSamples, pertMu, pertAlpha, pertBetaShape, pertV, envConst]
  · simp

/-- C7: a spec whose kind is not one of the four recognized kinds is
sampled by falling back to the uniform draw over [min, max] — the same
samples the uniform branch itself would produce. -/
theorem C7_unknown_kind_falls_back_to_uniform (g : NumpyEnv) (p : FactorInput) (n : ℕ)
    (h1 : lowerStr p.distribution ≠ "uniform")
    (h2 : lowerStr p.distribution ≠ "triangular")
    (h3 : lowerStr p.distribution ≠ "pert")
    (h4 : lowerStr p.distribution ≠ "lognormal") :
    generate_distribution_sample g p n =
      Except.ok (p, g.uniform p.min_value p.max_value n) ∧
    generate_distribution_sample g { p with distribution := "uniform" } n =
      Except.ok ({ p with distribution := "uniform" }, g.uniform p.min_value p.max_value n) := by
  constructor
  · exact generate_fallback_branch g p n h1 h2 h3 h4
  · exact generate_uniform_branch g { p with distribution := "uniform" } n
      (show lowerStr "uniform" = "uniform" by decide)

theorem C7_unknown_kind_falls_back_to_uniform_witness :
    generate_distribution_sample envConst ⟨1, 2, none, "weibull"⟩ 4 =
      Except.ok (⟨1, 2, none, "weibull"⟩,
        envConst.uniform (FactorInput.min_value ⟨1, 2, none, "weibull"⟩)
          (FactorInput.max_value ⟨1, 2, none, "weibull"⟩) 4) ∧
    generate_distribution_sample envConst
        { (⟨1, 2, none, "weibull"⟩ : FactorInput) with distribution := "uniform" } 4 =
      Except.ok ({ (⟨1, 2, none, "weibull"⟩ : FactorInput) with distribution := "uniform" },
        envConst.uniform (FactorInput.min_value ⟨1, 2, none, "weibull"⟩)
          (FactorInput.max_value ⟨1, 2, none, "weibull"⟩) 4) :=
  C7_unknown_kind_falls_back_to_uniform envConst ⟨1, 2, none, "weibull"⟩ 4
    (by decide) (by decide) (by decide) (by decide)

/-- C10: the sampler lowercases the kind before dispatch, so "PERT"
selects the pert branch (visible through the in-place midpoint default
only that branch performs) and "Uniform" the uniform branch; the
construction-time midpoint default, by contrast, compares the kind
case-sensitively, so "PERT" keeps `most_likely` unset while "pert"
defaults it. -/
theorem C10_dispatch_case_insensitive_default_case_sensitive
    (g : NumpyEnv) (mn mx : ℚ) (n : ℕ) (h0 : 0 ≤ mn) (h1 : mn ≤ mx) :
    mkTEFInput mn mx none "PERT" = Except.ok ⟨mn, mx, none, "PERT"⟩ ∧
    mkTEFInput mn mx none "pert" = Except.ok ⟨mn, mx, some ((mn + mx) / 2), "pert"⟩ ∧
    generate_distribution_sample g ⟨mn, mx, none, "PERT"⟩ n =
      Except.ok (⟨mn, mx, some ((mn + mx) / 2), "PERT"⟩,
        pertSamples g ⟨mn, mx, none, "PERT"⟩ n) ∧
    generate_distribution_sample g ⟨mn, mx, none, "Uniform"⟩ n =
      Except.ok (⟨mn, mx, none, "Uniform"⟩, g.uniform mn mx n) := by
  refine ⟨?_, ?_, ?_, ?_⟩
  · unfold mkTEFInput
    rw [if_neg (not_lt.2 h0), if_neg (not_lt.2 h1), if_neg (by decide)]
  · unfold mkTEFInput
    rw [if_neg (not_lt.2 h0), if_neg (not_lt.2 h1), if_pos (by decide)]
  · rw [generate_pert_branch g ⟨mn, mx, none, "PERT"⟩ n (show lowerStr "PERT" = "pert" by decide)
      (pertOK_default mn mx "PERT" h1)]
    unfold pertDefaulted
    rw [if_pos rfl]
  · exact generate_uniform_branch g ⟨mn, mx, none, "Uniform"⟩ n
      (show lowerStr "Uniform" = "uniform" by decide)

theorem C10_dispatch_case_insensitive_default_case_sensitive_witness :
    mkTEFInput 0 10 none "PERT" = Except.ok ⟨0, 10, none, "PERT"⟩ ∧
    mkTEFInput 0 10 none "pert" = Except.ok ⟨0, 10, some ((0 + 10) / 2), "pert"⟩ ∧
    generate_distribution_sample envConst ⟨0, 10, none, "PERT"⟩ 1 =
      Except.ok (⟨0, 10, some ((0 + 10) / 2), "PERT"⟩,
        pertSamples envConst ⟨0, 10, none, "PERT"⟩ 1) ∧
    generate_distribution_sample envConst ⟨0, 10, none, "Uniform"⟩ 1 =
      Except.ok (⟨0, 10, none, "Uniform"⟩, envConst.uniform 0 10 1) :=
  C10_dispatch_case_insensitive_default_case_sensitive envConst 0 10 1
    (by norm_num) (by norm_num)

/-- Under a well-formed oracle, sampling succeeds with `n` draws on every
factor inside its sampler parameter domain. -/
theorem generate_ok_length (g : NumpyEnv) (hg : g.WF) (p : FactorInput) (n : ℕ)
    (hm : factorSamplable p) :
    ∃ p2 s, generate_distribution_sample g p n = Except.ok (p2, s) ∧ s.length = n := by
  unfold factorSamplable at hm
  obtain ⟨hmt, hmp⟩ := hm
  by_cases h1 : lowerStr p.distribution = "uniform"
  · exact ⟨p, _, generate_uniform_branch g p n h1, hg.1 _ _ _⟩
  by_cases h2 : lowerStr p.distribution = "triangular"
  · obtain ⟨m, hsome, hge, hle, hne⟩ := hmt h2
    exact ⟨p, _, generate_triangular_branch g p n m h2 hsome
      (not_lt.2 hge) (not_lt.2 hle) hne, hg.2.1 _ _ _ _⟩
  by_cases h3 : lowerStr p.distribution = "pert"
  · refine ⟨pertDefaulted p, pertSamples g p n, generate_pert_branch g p n h3 (hmp h3), ?_⟩
    unfold pertSamples
    split_ifs <;> simp [hg.2.2.1]
  by_cases h4 : lowerStr p.distribution = "lognormal"
  · exact ⟨p, _, generate_lognormal_branch g p n h4, hg.2.2.2 _ _ _⟩
  · exact ⟨p, _, generate_fallback_branch g p n h1 h2 h3 h4, hg.1 _ _ _⟩

/-- Element access of the element-wise product of two lists. -/
theorem zipWith_mul_getD (a b : List ℚ) (i : ℕ) (ha : i < a.length) (hb : i < b.length) :
    (List.zipWith (· * ·) a b).getD i 0 = a.getD i 0 * b.getD i 0 := by
  induction a generalizing b i with
  | nil => exact absurd ha (by simp)
  | cons x xs ih =>
    cases b with
    | nil => exact absurd hb (by simp)
    | cons y ys =>
      cases i with
      | zero => rfl
      | succ j =>
        exact ih ys j (Nat.lt_of_succ_lt_succ ha) (Nat.lt_of_succ_lt_succ hb)

/-- C1 counterexample: a model the constructors accept and
`validate_inputs` passes — its TEF built exactly as
`TEFInput(5, 5, None, "triangular")`, whose mode defaults to 5 — makes
`run_simulation` raise numpy's `ValueError("left == right")` and produce
no table, refuting the claim as stated for sample count 3. -/
theorem C1_counterexample_degenerate_triangular :
    mkTEFInput 5 5 none "triangular" = Except.ok ⟨5, 5, some 5, "triangular"⟩ ∧
    validate_inputs ⟨"m", "d", some ⟨5, 5, some 5, "triangular"⟩,
      some ⟨0, 1, none, "uniform"⟩, some ⟨10, 20, none, "uniform"⟩⟩ = Except.ok true ∧
    run_simulation envConst
      ⟨⟨"m", "d", some ⟨5, 5, some 5, "triangular"⟩, some ⟨0, 1, none, "uniform"⟩,
        some ⟨10, 20, none, "uniform"⟩⟩, 3, none⟩ =
      (⟨⟨"m", "d", some ⟨5, 5, some 5, "triangular"⟩, some ⟨0, 1, none, "uniform"⟩,
        some ⟨10, 20, none, "uniform"⟩⟩, 3, none⟩,
       Except.error "ValueError: left == right") := by
  refine ⟨?_, rfl, ?_⟩
  · norm_num [mkTEFInput]
  · decide

/-- C1 (amended): on a populated model whose factors lie in their
samplers' parameter domains — a triangular factor has a set mode with
`min ≤ mode ≤ max` and `min ≠ max`, a pert factor short-circuits or has
positive Beta shapes — and any requested count `n ≥ 1`, `run_simulation`
returns a table whose five columns all have exactly `n` rows, with
`LEF[i] = TEF[i] * Vulnerability[i]` and
`ALE[i] = LEF[i] * LossMagnitude[i]` in every row; outside those domains
the underlying numpy call raises and no table is produced. -/
theorem C1_run_simulation_rows_and_products (g : NumpyEnv) (sim : MonteCarloSimulation)
    (hg : g.WF) (tp vp lp : FactorInput)
    (ht : sim.fair_model.tef = some tp)
    (hv : sim.fair_model.vulnerability = some vp)
    (hl : sim.fair_model.loss_magnitude = some lp)
    (htm : factorSamplable tp)
    (hvm : factorSamplable vp)
    (hlm : factorSamplable lp)
    (hn : 1 ≤ sim.num_simulations) :
    ∃ t : SimulationResults,
      (run_simulation g sim).2 = Except.ok t ∧
      t.tef.length = sim.num_simulations ∧
      t.vulnerability.length = sim.num_simulations ∧
      t.lef.length = sim.num_simulations ∧
      t.loss_magnitude.length = sim.num_simulations ∧
      t.ale.length = sim.num_simulations ∧
      ∀ i, i < sim.num_simulations →
        t.lef.getD i 0 = t.tef.getD i 0 * t.vulnerability.getD i 0 ∧
        t.ale.getD i 0 = t.lef.getD i 0 * t.loss_magnitude.getD i 0 := by
  obtain ⟨tp2, ts, hts, hlen1⟩ := generate_ok_length g hg tp sim.num_simulations htm
  obtain ⟨vp2, vs, hvs, hlen2⟩ := generate_ok_length g hg vp sim.num_simulations hvm
  obtain ⟨lp2, ls, hls, hlen3⟩ := generate_ok_length g hg lp sim.num_simulations hlm
  have hval : validate_inputs sim.fair_model = Except.ok true := by
    unfold validate_inputs
    rw [ht, hv, hl]
  have hrun : (run_simulation g sim).2 = Except.ok
      ⟨ts, vs, List.zipWith (· * ·) ts vs, ls,
        List.zipWith (· * ·) (List.zipWith (· * ·) ts vs) ls⟩ := by
    unfold run_simulation
    rw [hval, ht, hv, hl]
    dsimp only
    rw [hts]
    dsimp only
    rw [hvs]
    dsimp only
    rw [hls]
  refine ⟨_, hrun, hlen1, hlen2, ?_, hlen3, ?_, ?_⟩
  · simp [List.length_zipWith, hlen1, hlen2]
  · simp [List.length_zipWith, hlen1, hlen2, hlen3]
  · intro i hi
    constructor
    · exact zipWith_mul_getD ts vs i (hlen1 ▸ hi) (hlen2 ▸ hi)
    · refine zipWith_mul_getD _ ls i ?_ (hlen3 ▸ hi)
      simp [List.length_zipWith, hlen1, hlen2]
      exact hi

theorem C1_run_simulation_rows_and_products_witness :
    ∃ t : SimulationResults,
      (run_simulation envConst
        ⟨⟨"m", "d", some ⟨0, 2, none, "uniform"⟩, some ⟨0, 1, none, "uniform"⟩,
          some ⟨10, 20, none, "uniform"⟩⟩, 3, none⟩).2 = Except.ok t ∧
      t.tef.length = 3 ∧
      t.vulnerability.length = 3 ∧
      t.lef.length = 3 ∧
      t.loss_magnitude.length = 3 ∧
      t.ale.length = 3 ∧
      ∀ i, i < 3 →
        t.lef.getD i 0 = t.tef.getD i 0 * t.vulnerability.getD i 0 ∧
        t.ale.getD i 0 = t.lef.getD i 0 * t.loss_magnitude.getD i 0 :=
  C1_run_simulation_rows_and_products envConst
    ⟨⟨"m", "d", some ⟨0, 2, none, "uniform"⟩, some ⟨0, 1, none, "uniform"⟩,
      some ⟨10, 20, none, "uniform"⟩⟩, 3, none⟩
    envConst_wf ⟨0, 2, none, "uniform"⟩ ⟨0, 1, none, "uniform"⟩ ⟨10, 20, none, "uniform"⟩
    rfl rfl rfl
    (by unfold factorSamplable
        exact ⟨fun hc => absurd hc (by decide), fun hc => absurd hc (by decide)⟩)
    (by unfold factorSamplable
        exact ⟨fun hc => absurd hc (by decide), fun hc => absurd hc (by decide)⟩)
    (by unfold factorSamplable
        exact ⟨fun hc => absurd hc (by decide), fun hc => absurd hc (by decide)⟩)
    (by decide)
